import Mathlib

/-!
Verification of the uploader-rs resumable-upload engine against its
specification.  The Rust sources are shallowly embedded: the machine
integers u8, u32, u64 and usize become Nat, f64 becomes the rationals,
chrono DateTime values become Int counts of milliseconds, HashMap becomes
an association list, and fallible functions return Except.  Wall-clock
reads (Utc::now) become explicit time parameters.
-/

namespace Uploader

/-- Error taxonomy from src/error.rs (enum TusError).  Payloads wrapping
foreign error types (io::Error, reqwest::Error, serde_json::Error) are
modelled by their rendered message. -/
inductive TusError where
  | IOError (msg : String)
  | NetworkError (msg : String)
  | SerdeError (msg : String)
  | UploadNotFound (id : String)
  | InvalidState (msg : String)
  | Config (msg : String)
deriving DecidableEq

/-- Upload lifecycle states, from src/models/upload.rs lines 10-28. -/
inductive UploadState where
  | Pending
  | Active
  | Paused
  | Cancelled
  | Completed
  | Failed
deriving DecidableEq, Fintype

/-- Debug rendering of a state, as produced by the Rust derive(Debug)
formatting used in error messages. -/
def UploadState.debug_name : UploadState → String
  | .Pending => "Pending"
  | .Active => "Active"
  | .Paused => "Paused"
  | .Cancelled => "Cancelled"
  | .Completed => "Completed"
  | .Failed => "Failed"

/-- UploadState::can_transition_to, src/models/upload.rs lines 32-58,
embedded clause by clause. -/
def UploadState.can_transition_to (s : UploadState) (target : UploadState) : Bool :=
  match s, target with
  | .Pending, .Active => true
  | .Pending, .Cancelled => true
  | .Active, .Paused => true
  | .Active, .Cancelled => true
  | .Active, .Completed => true
  | .Active, .Failed => true
  | .Paused, .Active => true
  | .Paused, .Cancelled => true
  | .Completed, _ => false
  | .Cancelled, _ => false
  | .Failed, _ => false
  | _, _ => false

/-- Specification-side definition: the eight ticked cells of the transition
table in section 4.3 of the spec, written from the spec's words for the
refinement comparison with the source-side can_transition_to. -/
def spec_transition_table : List (UploadState × UploadState) :=
  [(.Pending, .Active), (.Pending, .Cancelled),
   (.Active, .Paused), (.Active, .Cancelled), (.Active, .Completed), (.Active, .Failed),
   (.Paused, .Active), (.Paused, .Cancelled)]

/-- Progress counters, struct UploadProgress of src/models/upload.rs
lines 63-84.  speed (f64) is modelled as a rational; last_updated
(DateTime of Utc) as epoch milliseconds. -/
structure UploadProgress where
  bytes_transferred : Nat
  total_bytes : Nat
  speed : ℚ
  chunks_completed : Nat
  total_chunks : Nat
  last_error : Option String
  last_updated : Int
deriving DecidableEq

/-- UploadProgress::new, src/models/upload.rs lines 87-99.  The float
expression ceil(total_bytes / chunk_size) is the ceiling division. -/
def UploadProgress.new (total_bytes : Nat) (chunk_size : Nat) (now : Int) : UploadProgress :=
  { bytes_transferred := 0
    total_bytes := total_bytes
    speed := 0
    chunks_completed := 0
    total_chunks := (total_bytes + chunk_size - 1) / chunk_size
    last_error := none
    last_updated := now }

/-- UploadProgress::update, src/models/upload.rs lines 102-121.  The
duration is (now - last_updated) milliseconds over 1000, as a rational. -/
def UploadProgress.update (p : UploadProgress) (new_bytes : Nat) (chunk_completed : Bool)
    (now : Int) : UploadProgress :=
  let duration : ℚ := ((now - p.last_updated : Int) : ℚ) / 1000
  let speed : ℚ :=
    if 0 < duration then
      let instant_speed := (new_bytes : ℚ) / duration
      if p.speed = 0 then instant_speed else p.speed * (7 / 10) + instant_speed * (3 / 10)
    else p.speed
  { p with
    bytes_transferred := p.bytes_transferred + new_bytes
    chunks_completed := if chunk_completed then p.chunks_completed + 1 else p.chunks_completed
    speed := speed
    last_updated := now }

/-- UploadProgress::percentage, src/models/upload.rs lines 124-130. -/
def UploadProgress.percentage (p : UploadProgress) : ℚ :=
  if p.total_bytes = 0 then 0
  else ((p.bytes_transferred : ℚ) / (p.total_bytes : ℚ)) * 100

/-- One upload record, struct Upload of src/models/upload.rs lines 135-163.
PathBuf is modelled as the path text. -/
structure Upload where
  id : String
  file_path : String
  filename : String
  state : UploadState
  progress : UploadProgress
  created_at : Int
  updated_at : Int
  upload_url : Option String
  metadata : List (String × String)
deriving DecidableEq

/-- Upload::transition_to, src/models/upload.rs lines 190-201. -/
def Upload.transition_to (u : Upload) (new_state : UploadState) (now : Int) :
    Except TusError Upload :=
  if !u.state.can_transition_to new_state then
    .error (.InvalidState
      ("Cannot transition from " ++ u.state.debug_name ++ " to " ++ new_state.debug_name))
  else
    .ok { u with state := new_state, updated_at := now }

/-- Upload::update_progress, src/models/upload.rs lines 210-213. -/
def Upload.update_progress (u : Upload) (bytes : Nat) (chunk_completed : Bool)
    (now : Int) : Upload :=
  { u with progress := u.progress.update bytes chunk_completed now, updated_at := now }

/-- Upload::set_upload_url, src/models/upload.rs lines 216-219. -/
def Upload.set_upload_url (u : Upload) (url : String) (now : Int) : Upload :=
  { u with upload_url := some url, updated_at := now }

/-- Upload::can_start, src/models/upload.rs lines 221-223. -/
def Upload.can_start (u : Upload) : Bool :=
  match u.state with
  | .Pending | .Paused => true
  | _ => false

/-- Upload::is_finished, src/models/upload.rs lines 225-227. -/
def Upload.is_finished (u : Upload) : Bool :=
  match u.state with
  | .Completed | .Cancelled | .Failed => true
  | _ => false

/-- Upload::is_active, src/models/upload.rs lines 229-231. -/
def Upload.is_active (u : Upload) : Bool :=
  match u.state with
  | .Active => true
  | _ => false

/-- Concrete record used to instantiate hypotheses of proved theorems. -/
def demo_upload : Upload :=
  { id := "u-demo"
    file_path := "/tmp/a.bin"
    filename := "a.bin"
    state := .Pending
    progress := UploadProgress.new 5 1 0
    created_at := 0
    updated_at := 0
    upload_url := none
    metadata := [] }

/-- A Duration, modelled after std::time::Duration as whole seconds plus
nanoseconds. -/
structure Duration where
  secs : Nat
  nanos : Nat
deriving DecidableEq

/-- Configuration, struct TusConfig of src/config.rs lines 8-45.  state_dir
(PathBuf) is modelled as the directory text. -/
structure TusConfig where
  endpoint : String
  headers : List (String × String)
  max_concurrent_uploads : Nat
  chunk_size : Nat
  max_retries : Nat
  retry_delay : Duration
  state_dir : String
  buffer_size : Nat
deriving DecidableEq

/-- An HTTP response as the worker observes it: a status code and the
response headers.  reqwest stores header names lowercased, so lookups in
this model use lowercase keys. -/
structure HttpResponse where
  status : Nat
  headers : List (String × String)
deriving DecidableEq

/-- reqwest StatusCode::is_success: the 2xx range. -/
def is_success (status : Nat) : Bool := 200 ≤ status && status < 300

/-- Case-normalized header lookup (reqwest HeaderMap::get). -/
def header_get (headers : List (String × String)) (key : String) : Option String :=
  (headers.find? (fun kv => kv.fst = key)).map (fun kv => kv.snd)

/-- Whether a character is a decimal digit. -/
def decimal_digit (c : Char) : Bool := 48 ≤ c.toNat && c.toNat ≤ 57

/-- Parse a string of decimal digits as an unsigned integer (the model of
str::parse::<u64> for the digit strings servers emit). -/
def parse_nat (s : String) : Option Nat :=
  let cs := s.toList
  if cs ≠ [] ∧ cs.all decimal_digit then
    some (cs.foldl (fun acc c => acc * 10 + (c.toNat - 48)) 0)
  else none

/-- The Upload-Offset header of a HEAD response parsed as an unsigned
integer, per src/uploader/worker.rs lines 184-189. -/
def parse_upload_offset (resp : HttpResponse) : Option Nat :=
  (header_get resp.headers "upload-offset").bind parse_nat

/-- UTF-8 encoding of one character (the bytes base64::encode consumes). -/
def utf8_encode_char (c : Char) : List Nat :=
  let n := c.toNat
  if n < 0x80 then [n]
  else if n < 0x800 then [0xC0 + n / 0x40, 0x80 + n % 0x40]
  else if n < 0x10000 then
    [0xE0 + n / 0x1000, 0x80 + n / 0x40 % 0x40, 0x80 + n % 0x40]
  else
    [0xF0 + n / 0x40000, 0x80 + n / 0x1000 % 0x40, 0x80 + n / 0x40 % 0x40, 0x80 + n % 0x40]

/-- UTF-8 bytes of a string. -/
def utf8_bytes (s : String) : List Nat :=
  s.toList.foldr (fun c acc => utf8_encode_char c ++ acc) []

/-- The RFC 4648 standard base64 alphabet. -/
def base64_alphabet : List Char :=
  "ABCDEFGHIJKLMNOPQRSTUVWXYZabcdefghijklmnopqrstuvwxyz0123456789+/".toList

/-- The base64 digit for a 6-bit value. -/
def base64_digit (n : Nat) : Char := base64_alphabet.getD n '='

/-- RFC 4648 base64 of a byte list, three bytes to four digits with '='
padding (base64::engine::general_purpose::STANDARD). -/
def base64_groups : List Nat → List Char
  | [] => []
  | [a] => [base64_digit (a / 4), base64_digit (a % 4 * 16), '=', '=']
  | [a, b] =>
      [base64_digit (a / 4), base64_digit (a % 4 * 16 + b / 16), base64_digit (b % 16 * 4), '=']
  | a :: b :: c :: rest =>
      base64_digit (a / 4) :: base64_digit (a % 4 * 16 + b / 16) ::
      base64_digit (b % 16 * 4 + c / 64) :: base64_digit (c % 64) :: base64_groups rest

/-- base64 of the UTF-8 bytes of a string. -/
def base64_encode (s : String) : String := String.mk (base64_groups (utf8_bytes s))

/-- UploadWorker::create_metadata_headers, src/uploader/worker.rs lines
195-215: each entry becomes "key base64(value)" and the entries are joined
with "." (the separator the source actually uses); the header is absent
when the joined string is empty.  The association list carries the
HashMap iteration order. -/
def create_metadata_headers (metadata : List (String × String)) : Option String :=
  let joined := String.intercalate "."
    (metadata.map (fun kv => kv.fst ++ " " ++ base64_encode kv.snd))
  if joined.isEmpty then none else some joined

/-- The environment one worker run observes, collapsing HTTP transport and
file I/O into oracles: stop is the watch-channel value at the top of
iteration i, head_resp the HEAD exchange of iteration i (network-error
message or response), patch_resp the k-th PATCH exchange counted over the
whole run, file_len the current length of the local file, and time the
clock at iteration i. -/
structure WorkerEnv where
  stop : Nat → Bool
  head_resp : Nat → Except String HttpResponse
  patch_resp : Nat → Except String HttpResponse
  file_len : Nat
  time : Nat → Int

/-- UploadWorker::create_upload, src/uploader/worker.rs lines 61-86: a
transport failure maps to NetworkError, a non-2xx status fails with a
Config error carrying the status, a missing location header fails with a
Config error, and otherwise the location is stored into the record. -/
def create_upload (resp : Except String HttpResponse) (u : Upload) (now : Int) :
    Except TusError Upload :=
  match resp with
  | .error msg => .error (.NetworkError msg)
  | .ok r =>
    if !is_success r.status then
      .error (.Config ("Failed to create upload: " ++ toString r.status))
    else
      match header_get r.headers "location" with
      | none => .error (.Config "No location header in response")
      | some loc => .ok (u.set_upload_url loc now)

/-- UploadWorker::get_offset, src/uploader/worker.rs lines 164-192. -/
def get_offset (env : WorkerEnv) (u : Upload) (iter : Nat) : Except TusError Nat :=
  match u.upload_url with
  | none => .error (.Config "No upload URL available")
  | some _ =>
    match env.head_resp iter with
    | .error msg => .error (.NetworkError msg)
    | .ok r =>
      if !is_success r.status then
        .error (.Config ("Failed to get offset: " ++ toString r.status))
      else
        match parse_upload_offset r with
        | none => .error (.Config "Invalid offset in response")
        | some offset => .ok offset

/-- UploadWorker::upload_chunk, src/uploader/worker.rs lines 140-161: one
PATCH attempt, failing with NetworkError on transport failure and with a
Config error carrying the status on non-2xx. -/
def upload_chunk (env : WorkerEnv) (u : Upload) (attempt : Nat) : Except TusError Unit :=
  match u.upload_url with
  | none => .error (.Config "No upload URL available")
  | some _ =>
    match env.patch_resp attempt with
    | .error msg => .error (.NetworkError msg)
    | .ok r =>
      if !is_success r.status then
        .error (.Config ("Failed to upload chunk: " ++ toString r.status))
      else .ok ()

/-- The inner retry loop of upload_chunks, src/uploader/worker.rs lines
119-134: attempt the PATCH; on success update progress by n bytes and
leave the loop; on failure increment the retry counter, give up with the
error once the counter reaches max_retries, otherwise sleep and retry the
same chunk.  The source counts retries upward and stops when
retries + 1 >= max_retries after the increment; this embedding recurses
structurally on the REMAINING budget max_retries - retries, which is <= 1
exactly when the incremented counter has reached max_retries.  Returns
the outcome, the record after any progress update, and the next overall
PATCH-attempt index. -/
def retry_patch_aux (env : WorkerEnv) (cfg : TusConfig) (u : Upload) (n iter : Nat) :
    Nat → Nat → (Except TusError Unit) × Upload × Nat
  | 0, attempt =>
    match upload_chunk env u attempt with
    | .ok _ => (.ok (), u.update_progress n true (env.time iter), attempt + 1)
    | .error e => (.error e, u, attempt + 1)
  | 1, attempt =>
    match upload_chunk env u attempt with
    | .ok _ => (.ok (), u.update_progress n true (env.time iter), attempt + 1)
    | .error e => (.error e, u, attempt + 1)
  | r + 2, attempt =>
    match upload_chunk env u attempt with
    | .ok _ => (.ok (), u.update_progress n true (env.time iter), attempt + 1)
    | .error _ => retry_patch_aux env cfg u n iter (r + 1) (attempt + 1)

/-- The retry loop entered with retry counter retries (0 at every chunk),
expressed through the remaining budget. -/
def retry_patch (env : WorkerEnv) (cfg : TusConfig) (u : Upload) (n : Nat)
    (iter attempt retries : Nat) : (Except TusError Unit) × Upload × Nat :=
  retry_patch_aux env cfg u n iter (cfg.max_retries - retries) attempt

/-- UploadWorker::upload_chunks, src/uploader/worker.rs lines 88-138, with
explicit fuel for the unbounded outer loop (none means the run was cut off
by fuel, never returned by any finite execution the theorems exhibit).
Per iteration: if the stop signal is set, transition to Paused and return;
query the server offset (propagating errors); if the offset has reached
total_bytes, transition to Completed and return; read up to chunk_size
bytes at the offset, and if the read yields 0 bytes leave the loop
returning success WITHOUT a transition (the source breaks); otherwise run
the retry loop for the PATCH, propagating exhaustion errors. -/
def upload_chunks (env : WorkerEnv) (cfg : TusConfig) :
    Nat → Upload → Nat → Nat → Option ((Except TusError Unit) × Upload × Nat)
  | 0, _, _, _ => none
  | fuel + 1, u, iter, attempt =>
    if env.stop iter then
      match u.transition_to .Paused (env.time iter) with
      | .ok u' => some (.ok (), u', attempt)
      | .error e => some (.error e, u, attempt)
    else
      match get_offset env u iter with
      | .error e => some (.error e, u, attempt)
      | .ok offset =>
        if u.progress.total_bytes ≤ offset then
          match u.transition_to .Completed (env.time iter) with
          | .ok u' => some (.ok (), u', attempt)
          | .error e => some (.error e, u, attempt)
        else
          let n := min cfg.chunk_size (env.file_len - offset)
          if n = 0 then
            some (.ok (), u, attempt)
          else
            match retry_patch env cfg u n iter attempt 0 with
            | (.ok _, u', attempt') => upload_chunks env cfg fuel u' (iter + 1) attempt'
            | (.error e, u', attempt') => some (.error e, u', attempt')

/-- UploadWorker::start, src/uploader/worker.rs lines 44-58: reject records
that cannot start, transition to Active, create the server resource when
no upload_url is known yet, then run the transfer loop.  The returned
record is the worker's record field after the run, also in the error
cases. -/
def worker_start (env : WorkerEnv) (cfg : TusConfig) (create_resp : Except String HttpResponse)
    (fuel : Nat) (u : Upload) (now : Int) : Option ((Except TusError Unit) × Upload × Nat) :=
  if !u.can_start then
    some (.error (.InvalidState "Upload cannot be started in current state"), u, 0)
  else
    match u.transition_to .Active now with
    | .error e => some (.error e, u, 0)
    | .ok u1 =>
      match (if u1.upload_url.isNone then create_upload create_resp u1 now else .ok u1) with
      | .error e => some (.error e, u1, 0)
      | .ok u2 => upload_chunks env cfg fuel u2 0 0

/-- Whether an error is the Network kind. -/
def TusError.is_network : TusError → Bool
  | .NetworkError _ => true
  | _ => false

/-- A concrete configuration (endpoint and sizes as in the spec's
scenarios; max_retries = 2 as in scenario 5). -/
def demo_config : TusConfig :=
  { endpoint := "http://s/"
    headers := []
    max_concurrent_uploads := 2
    chunk_size := 1
    max_retries := 2
    retry_delay := ⟨1, 0⟩
    state_dir := "/state"
    buffer_size := 1 }

/-- The demo record as the worker holds it inside the transfer loop: state
Active with a known server resource URL (total_bytes = 5, nothing
transferred yet). -/
def active_upload : Upload :=
  { demo_upload with state := .Active, upload_url := some "/files/demo" }

/-- Environment whose first HEAD already reports offset 5 = total_bytes:
the server holds everything although this client transferred nothing. -/
def env_offset_complete : WorkerEnv :=
  { stop := fun _ => false
    head_resp := fun _ => .ok ⟨200, [("upload-offset", "5")]⟩
    patch_resp := fun _ => .error "unused"
    file_len := 5
    time := fun _ => 0 }

/-- Environment where the HEAD reports offset 0 but the local file is
empty, so the chunk read yields 0 bytes. -/
def env_zero_read : WorkerEnv :=
  { stop := fun _ => false
    head_resp := fun _ => .ok ⟨200, [("upload-offset", "0")]⟩
    patch_resp := fun _ => .error "unused"
    file_len := 0
    time := fun _ => 0 }

/-- Environment where every PATCH attempt receives a 500 response. -/
def env_patch_fails : WorkerEnv :=
  { stop := fun _ => false
    head_resp := fun _ => .ok ⟨200, [("upload-offset", "0")]⟩
    patch_resp := fun _ => .ok ⟨500, []⟩
    file_len := 5
    time := fun _ => 0 }

/-- A configuration with max_retries = 3 (the spec's scenario 4). -/
def demo_config3 : TusConfig := { demo_config with max_retries := 3 }

/-- Shared state the manager's tasks interleave over: the semaphore's
available permits and the keys of the active_uploads registry
(src/uploader/manager.rs lines 19-24). -/
structure ManagerState where
  permits : Nat
  active_uploads : List String
deriving DecidableEq

/-- Micro-operations the manager's spawned tasks perform on the shared
state.  acquire blocks (is not enabled) when no permit is available;
insert_handle is the registry insert of manager.rs line 86; release is the
drop of the permit when the async block that acquired it ends. -/
inductive ManagerOp where
  | acquire
  | insert_handle (id : String)
  | release
deriving DecidableEq

/-- Effect of one micro-operation; none when the operation is not enabled
(an acquire finding no permit would block instead of running). -/
def ManagerOp.apply : ManagerState → ManagerOp → Option ManagerState
  | s, .acquire => if s.permits = 0 then none else some { s with permits := s.permits - 1 }
  | s, .insert_handle id =>
      some { s with active_uploads :=
        if s.active_uploads.contains id then s.active_uploads else id :: s.active_uploads }
  | s, .release => some { s with permits := s.permits + 1 }

/-- Run a schedule of micro-operations; some final state exactly when every
operation was enabled when its turn came. -/
def run_ops : ManagerState → List ManagerOp → Option ManagerState
  | s, [] => some s
  | s, op :: rest =>
    match ManagerOp.apply s op with
    | none => none
    | some s' => run_ops s' rest

/-- The micro-operations of the task start_upload spawns, in program
order (src/uploader/manager.rs lines 61-89): acquire a permit, spawn the
worker as a SEPARATE task (no shared-state effect), insert the handle into
active_uploads, and reach the end of the block, dropping the permit.  The
spawned worker's termination is NOT in this list because the source
removes nothing from the registry and holds no permit in the worker task:
its completion only updates the state store (lines 72-78). -/
def start_upload_task_ops (id : String) : List ManagerOp :=
  [.acquire, .insert_handle id, .release]

/-- UploadManager::get_active_count, src/uploader/manager.rs lines
125-127: the size of the active_uploads registry. -/
def get_active_count (s : ManagerState) : Nat := s.active_uploads.length

/-- A JSON document, the model of the serde_json value the snapshot is
serialized to and parsed from (numbers as rationals, covering the u8,
u32, u64, usize, i64 and f64 leaves of the data model). -/
inductive Json where
  | null
  | bool (b : Bool)
  | num (q : ℚ)
  | str (s : String)
  | arr (elems : List Json)
  | obj (fields : List (String × Json))

/-- Lookup of an object field by name (serde matches fields by name). -/
def lookup_field : List (String × Json) → String → Option Json
  | [], _ => none
  | (k, v) :: rest, key => if k = key then some v else lookup_field rest key

/-- Field access on a JSON value: only objects have fields. -/
def Json.get_field : Json → String → Option Json
  | .obj fields, key => lookup_field fields key
  | _, _ => none

/-- Decode a JSON string. -/
def Json.as_str : Json → Option String
  | .str s => some s
  | _ => none

/-- Decode an unsigned integer: a number with denominator 1 and
non-negative numerator. -/
def Json.as_nat : Json → Option Nat
  | .num q => if q.den = 1 ∧ 0 ≤ q.num then some q.num.toNat else none
  | _ => none

/-- Decode a signed integer: a number with denominator 1. -/
def Json.as_int : Json → Option Int
  | .num q => if q.den = 1 then some q.num else none
  | _ => none

/-- Decode a rational (the f64 leaves). -/
def Json.as_rat : Json → Option ℚ
  | .num q => some q
  | _ => none

/-- Decode an optional string (serde: null or the value). -/
def Json.as_opt_str : Json → Option (Option String)
  | .null => some none
  | .str s => some (some s)
  | _ => none

/-- Encode an optional string (serde: null or the value). -/
def opt_str_to_json : Option String → Json
  | none => .null
  | some s => .str s

/-- Encode a text-to-text mapping as a JSON object. -/
def str_map_to_json (m : List (String × String)) : Json :=
  .obj (m.map (fun kv => (kv.fst, .str kv.snd)))

/-- Decode the fields of a text-to-text object. -/
def decode_str_fields : List (String × Json) → Option (List (String × String))
  | [] => some []
  | (k, .str v) :: rest => (decode_str_fields rest).map (fun l => (k, v) :: l)
  | _ => none

/-- Decode a text-to-text mapping. -/
def Json.as_str_map : Json → Option (List (String × String))
  | .obj fields => decode_str_fields fields
  | _ => none

/-- serde rendering of a unit enum variant: its name as a string. -/
def UploadState.to_json : UploadState → Json
  | .Pending => .str "Pending"
  | .Active => .str "Active"
  | .Paused => .str "Paused"
  | .Cancelled => .str "Cancelled"
  | .Completed => .str "Completed"
  | .Failed => .str "Failed"

/-- serde parsing of a unit enum variant from its name. -/
def UploadState.from_json : Json → Option UploadState
  | .str "Pending" => some .Pending
  | .str "Active" => some .Active
  | .str "Paused" => some .Paused
  | .str "Cancelled" => some .Cancelled
  | .str "Completed" => some .Completed
  | .str "Failed" => some .Failed
  | _ => none

/-- serde rendering of UploadProgress, fields in declaration order
(src/models/upload.rs lines 63-84). -/
def UploadProgress.to_json (p : UploadProgress) : Json :=
  .obj [("bytes_transferred", .num (p.bytes_transferred : ℚ)),
        ("total_bytes", .num (p.total_bytes : ℚ)),
        ("speed", .num p.speed),
        ("chunks_completed", .num (p.chunks_completed : ℚ)),
        ("total_chunks", .num (p.total_chunks : ℚ)),
        ("last_error", opt_str_to_json p.last_error),
        ("last_updated", .num (p.last_updated : ℚ))]

/-- serde parsing of UploadProgress by field name. -/
def UploadProgress.from_json (j : Json) : Option UploadProgress := do
  let bytes_transferred ← (j.get_field "bytes_transferred").bind Json.as_nat
  let total_bytes ← (j.get_field "total_bytes").bind Json.as_nat
  let speed ← (j.get_field "speed").bind Json.as_rat
  let chunks_completed ← (j.get_field "chunks_completed").bind Json.as_nat
  let total_chunks ← (j.get_field "total_chunks").bind Json.as_nat
  let last_error ← (j.get_field "last_error").bind Json.as_opt_str
  let last_updated ← (j.get_field "last_updated").bind Json.as_int
  pure { bytes_transferred, total_bytes, speed, chunks_completed, total_chunks,
         last_error, last_updated }

/-- serde rendering of Upload, fields in declaration order
(src/models/upload.rs lines 135-163). -/
def Upload.to_json (u : Upload) : Json :=
  .obj [("id", .str u.id),
        ("file_path", .str u.file_path),
        ("filename", .str u.filename),
        ("state", u.state.to_json),
        ("progress", u.progress.to_json),
        ("created_at", .num (u.created_at : ℚ)),
        ("updated_at", .num (u.updated_at : ℚ)),
        ("upload_url", opt_str_to_json u.upload_url),
        ("metadata", str_map_to_json u.metadata)]

/-- serde parsing of Upload by field name. -/
def Upload.from_json (j : Json) : Option Upload := do
  let id ← (j.get_field "id").bind Json.as_str
  let file_path ← (j.get_field "file_path").bind Json.as_str
  let filename ← (j.get_field "filename").bind Json.as_str
  let state ← (j.get_field "state").bind UploadState.from_json
  let progress ← (j.get_field "progress").bind UploadProgress.from_json
  let created_at ← (j.get_field "created_at").bind Json.as_int
  let updated_at ← (j.get_field "updated_at").bind Json.as_int
  let upload_url ← (j.get_field "upload_url").bind Json.as_opt_str
  let metadata ← (j.get_field "metadata").bind Json.as_str_map
  pure { id, file_path, filename, state, progress, created_at, updated_at,
         upload_url, metadata }

/-- serde rendering of a std Duration: secs and nanos. -/
def Duration.to_json (d : Duration) : Json :=
  .obj [("secs", .num (d.secs : ℚ)), ("nanos", .num (d.nanos : ℚ))]

/-- serde parsing of a std Duration. -/
def Duration.from_json (j : Json) : Option Duration := do
  let secs ← (j.get_field "secs").bind Json.as_nat
  let nanos ← (j.get_field "nanos").bind Json.as_nat
  pure { secs, nanos }

/-- serde rendering of TusConfig, fields in declaration order
(src/config.rs lines 8-45). -/
def TusConfig.to_json (c : TusConfig) : Json :=
  .obj [("endpoint", .str c.endpoint),
        ("headers", str_map_to_json c.headers),
        ("max_concurrent_uploads", .num (c.max_concurrent_uploads : ℚ)),
        ("chunk_size", .num (c.chunk_size : ℚ)),
        ("max_retries", .num (c.max_retries : ℚ)),
        ("retry_delay", c.retry_delay.to_json),
        ("state_dir", .str c.state_dir),
        ("buffer_size", .num (c.buffer_size : ℚ))]

/-- serde parsing of TusConfig by field name. -/
def TusConfig.from_json (j : Json) : Option TusConfig := do
  let endpoint ← (j.get_field "endpoint").bind Json.as_str
  let headers ← (j.get_field "headers").bind Json.as_str_map
  let max_concurrent_uploads ← (j.get_field "max_concurrent_uploads").bind Json.as_nat
  let chunk_size ← (j.get_field "chunk_size").bind Json.as_nat
  let max_retries ← (j.get_field "max_retries").bind Json.as_nat
  let retry_delay ← (j.get_field "retry_delay").bind Duration.from_json
  let state_dir ← (j.get_field "state_dir").bind Json.as_str
  let buffer_size ← (j.get_field "buffer_size").bind Json.as_nat
  pure { endpoint, headers, max_concurrent_uploads, chunk_size, max_retries,
         retry_delay, state_dir, buffer_size }

/-- The persisted root, struct UploadStateSnapshot of src/models/state.rs
lines 12-21: schema version, the id-to-record mapping, and the config. -/
structure UploadStateSnapshot where
  version : Nat
  uploads : List (String × Upload)
  config : TusConfig

/-- UploadStateSnapshot::new, src/models/state.rs lines 35-41. -/
def UploadStateSnapshot.new (config : TusConfig) : UploadStateSnapshot :=
  { version := 1, uploads := [], config }

/-- Encode the uploads mapping as a JSON object keyed by id. -/
def uploads_to_json (l : List (String × Upload)) : Json :=
  .obj (l.map (fun kv => (kv.fst, kv.snd.to_json)))

/-- Decode the fields of the uploads object. -/
def decode_upload_fields : List (String × Json) → Option (List (String × Upload))
  | [] => some []
  | (k, v) :: rest =>
    match Upload.from_json v, decode_upload_fields rest with
    | some u, some l => some ((k, u) :: l)
    | _, _ => none

/-- Decode the uploads mapping. -/
def Json.as_uploads : Json → Option (List (String × Upload))
  | .obj fields => decode_upload_fields fields
  | _ => none

/-- serde rendering of the snapshot, fields in declaration order. -/
def UploadStateSnapshot.to_json (s : UploadStateSnapshot) : Json :=
  .obj [("version", .num (s.version : ℚ)),
        ("uploads", uploads_to_json s.uploads),
        ("config", s.config.to_json)]

/-- serde parsing of the snapshot by field name. -/
def UploadStateSnapshot.from_json (j : Json) : Option UploadStateSnapshot := do
  let version ← (j.get_field "version").bind Json.as_nat
  let uploads ← (j.get_field "uploads").bind Json.as_uploads
  let config ← (j.get_field "config").bind TusConfig.from_json
  pure { version, uploads, config }

/-- A file system, path to parsed content (text serialization and parsing
of the JSON tree are collapsed: pretty-printing then re-parsing a tree is
the identity the serde_json text grammar provides). -/
def ModelFs := String → Option Json

/-- Write (create or overwrite) a file. -/
def fs_write (fs : ModelFs) (path : String) (content : Json) : ModelFs :=
  fun p => if p = path then some content else fs p

/-- Atomically rename src over dst. -/
def fs_rename (fs : ModelFs) (src dst : String) : ModelFs :=
  fun p => if p = dst then fs src else if p = src then none else fs p

/-- The snapshot file path, state_dir joined with upload_state.json
(src/models/state.rs line 48). -/
def state_file_path (state_dir : String) : String := state_dir ++ "/upload_state.json"

/-- The sibling tmp path, with_extension("tmp"). -/
def temp_file_path (state_dir : String) : String := state_dir ++ "/upload_state.tmp"

/-- UploadManager::persist_state, src/models/state.rs lines 123-131:
serialize the snapshot, write it to the tmp file, rename tmp over the
state file. -/
def persist_state (fs : ModelFs) (state_dir : String) (snap : UploadStateSnapshot) : ModelFs :=
  let fs1 := fs_write fs (temp_file_path state_dir) snap.to_json
  fs_rename fs1 (temp_file_path state_dir) (state_file_path state_dir)

/-- UploadManager::save_state, src/models/state.rs lines 134-137: persist
the current in-memory snapshot. -/
def save_state (fs : ModelFs) (state_dir : String) (snap : UploadStateSnapshot) : ModelFs :=
  persist_state fs state_dir snap

/-- The state store handle, struct UploadManager of src/models/state.rs
lines 26-32: the in-memory snapshot (the lock is dropped in this
sequential model) and the snapshot file path. -/
structure UploadManager where
  state : UploadStateSnapshot
  state_file : String

/-- UploadManager::new, src/models/state.rs lines 45-61: if the state file
exists parse it (failing with a Serde error when the parse fails),
otherwise start a fresh snapshot with the given config. -/
def UploadManager.new (fs : ModelFs) (config : TusConfig) : Except TusError UploadManager :=
  let path := state_file_path config.state_dir
  match fs path with
  | some content =>
    match UploadStateSnapshot.from_json content with
    | some snap => .ok { state := snap, state_file := path }
    | none => .error (.SerdeError "invalid snapshot")
  | none => .ok { state := UploadStateSnapshot.new config, state_file := path }

end Uploader

namespace Uploader.Core

/-- Upload lifecycle states of the second draft, src/core/upload.rs lines
141-156 (this draft has no Cancelled state). -/
inductive UploadStatus where
  | Pending
  | Active
  | Paused
  | Completed
  | Failed
deriving DecidableEq, Fintype

/-- UploadStatus::can_transition_to, src/core/upload.rs lines 159-176. -/
def UploadStatus.can_transition_to (s : UploadStatus) (target : UploadStatus) : Bool :=
  match s, target with
  | .Pending, .Active => true
  | .Active, .Paused => true
  | .Active, .Completed => true
  | .Active, .Failed => true
  | .Paused, .Pending => true
  | .Paused, .Active => true
  | .Failed, .Pending => true
  | .Failed, .Active => true
  | _, _ => false

/-- Progress of the second draft, src/core/upload.rs lines 8-21 (speed is
a u64 here). -/
structure UploadProgress where
  bytes_transferred : Nat
  total_bytes : Nat
  speed : Nat
  last_update : Int
deriving DecidableEq

/-- One upload record of the second draft, src/core/upload.rs lines
48-83. -/
structure Upload where
  id : String
  file_path : String
  filename : String
  status : UploadStatus
  total_bytes : Nat
  location : Option String
  chunk_size : Nat
  progress : UploadProgress
  metadata : List (String × String)
  created_at : Int
  update_at : Int
deriving DecidableEq

/-- UploadStateManager::remove, src/core/state.rs lines 78-81: the body is
retain(upload.id == id), which KEEPS the records whose id equals the
argument and discards every other record; it does not persist and reports
no error for an absent id. -/
def UploadStateManager.remove (uploads : List Upload) (id : String) : List Upload :=
  uploads.filter (fun u => u.id = id)

/-- A concrete record of the second draft for evaluating remove. -/
def upload_a : Upload :=
  { id := "a"
    file_path := "/tmp/a.bin"
    filename := "a.bin"
    status := .Pending
    total_bytes := 5
    location := none
    chunk_size := 1
    progress := ⟨0, 5, 0, 0⟩
    metadata := []
    created_at := 0
    update_at := 0 }

/-- A second concrete record of the second draft. -/
def upload_b : Upload := { upload_a with id := "b", file_path := "/tmp/b.bin", filename := "b.bin" }

end Uploader.Core

namespace Uploader

/-- C1: can_transition_to agrees with the section 4.3 table on all 36
ordered pairs of states, and transition_to fails with InvalidState on
exactly the forbidden pairs while setting the state field (and updated_at)
on exactly the allowed ones. -/
theorem can_transition_to_matches_spec_table :
    (∀ f t : UploadState, f.can_transition_to t = true ↔ (f, t) ∈ spec_transition_table) ∧
    (∀ (u : Upload) (t : UploadState) (now : Int),
      (u.state.can_transition_to t = false →
        u.transition_to t now = .error (.InvalidState
          ("Cannot transition from " ++ u.state.debug_name ++ " to " ++ t.debug_name))) ∧
      (u.state.can_transition_to t = true →
        u.transition_to t now = .ok { u with state := t, updated_at := now })) := by
  constructor
  · decide
  · intro u t now
    constructor
    · intro h
      simp [Upload.transition_to, h]
    · intro h
      simp [Upload.transition_to, h]

/-- Witness instantiating C1 at concrete inputs: Pending to Active is in
the table and succeeds, Completed to Active is forbidden and fails. -/
theorem can_transition_to_matches_spec_table_witness :
    (UploadState.Pending.can_transition_to .Active = true ↔
      (UploadState.Pending, UploadState.Active) ∈ spec_transition_table) ∧
    (demo_upload.transition_to .Active 7 =
      .ok { demo_upload with state := .Active, updated_at := 7 }) ∧
    ({ demo_upload with state := .Completed }.transition_to .Active 7 =
      .error (.InvalidState "Cannot transition from Completed to Active")) :=
  ⟨can_transition_to_matches_spec_table.1 .Pending .Active,
   (can_transition_to_matches_spec_table.2 demo_upload .Active 7).2 (by decide),
   (can_transition_to_matches_spec_table.2 { demo_upload with state := .Completed } .Active 7).1
     (by decide)⟩

/-- C10: percentage is total: it returns 0 when total_bytes is 0, and
otherwise returns the ratio times 100 (stated multiplicatively, so no
division appears in the claim itself). -/
theorem percentage_zero_guard :
    ∀ p : UploadProgress,
      (p.total_bytes = 0 → p.percentage = 0) ∧
      (p.total_bytes ≠ 0 →
        p.percentage * (p.total_bytes : ℚ) = (p.bytes_transferred : ℚ) * 100) := by
  intro p
  constructor
  · intro h
    simp [UploadProgress.percentage, h]
  · intro h
    have hq : (p.total_bytes : ℚ) ≠ 0 := by exact_mod_cast h
    simp [UploadProgress.percentage, h]
    field_simp

/-- Witness instantiating C10 at total_bytes = 0 and at total_bytes = 4
with one byte transferred. -/
theorem percentage_zero_guard_witness :
    ({ demo_upload.progress with total_bytes := 0 }.percentage = 0) ∧
    ({ demo_upload.progress with total_bytes := 4, bytes_transferred := 1 }.percentage *
      ((4 : Nat) : ℚ) = ((1 : Nat) : ℚ) * 100) :=
  ⟨(percentage_zero_guard { demo_upload.progress with total_bytes := 0 }).1 rfl,
   (percentage_zero_guard
      { demo_upload.progress with total_bytes := 4, bytes_transferred := 1 }).2 (by decide)⟩

/-- C7 (code bug): with two metadata entries the generated Upload-Metadata
value joins the entries with "." where the tus grammar (and the spec)
requires ","; with empty metadata the header is omitted.  The base64
encoding itself is correct RFC 4648. -/
theorem metadata_header_joined_with_dot :
    create_metadata_headers [("k1", "v1"), ("k2", "v2")] = some "k1 djE=.k2 djI=" ∧
    some "k1 djE=.k2 djI=" ≠ some "k1 djE=,k2 djI=" ∧
    create_metadata_headers [] = none := by
  refine ⟨by rfl, by decide, by rfl⟩

/-- Counterexample to C8: a Creation POST answered with status 500 fails
with a Config error (the non-retryable configuration kind), not with any
Protocol kind (the embedded taxonomy from src/error.rs has none) and not
with a Network error. -/
theorem create_upload_status500_yields_config_kind :
    create_upload (.ok ⟨500, []⟩) demo_upload 0 =
      .error (.Config "Failed to create upload: 500") ∧
    TusError.is_network (.Config "Failed to create upload: 500") = false := by
  refine ⟨by rfl, by rfl⟩

/-- C8 as amended: every non-2xx Creation response makes create_upload
fail with a Config error whose message carries the status. -/
theorem create_upload_non2xx_config_error :
    ∀ (r : HttpResponse) (u : Upload) (now : Int),
      is_success r.status = false →
      create_upload (.ok r) u now =
        .error (.Config ("Failed to create upload: " ++ toString r.status)) := by
  intro r u now h
  simp [create_upload, h]

/-- Witness instantiating the amended C8 at a concrete 503 response. -/
theorem create_upload_non2xx_config_error_witness :
    create_upload (.ok ⟨503, [("location", "/files/x")]⟩) demo_upload 1 =
      .error (.Config "Failed to create upload: 503") :=
  create_upload_non2xx_config_error ⟨503, [("location", "/files/x")]⟩ demo_upload 1 (by decide)

/-- Counterexample to C9: with the local file empty and the server offset
at 0, the read yields 0 bytes and upload_chunks returns success with the
record unchanged — still Active, never transitioned to Completed. -/
theorem zero_read_returns_active_record :
    upload_chunks env_zero_read demo_config 1 active_upload 0 0 =
      some (.ok (), active_upload, 0) ∧
    active_upload.state = .Active ∧ active_upload.state ≠ .Completed := by
  refine ⟨by rfl, by rfl, by decide⟩

/-- C9 as amended: whenever the stop signal is clear, the server offset is
below total_bytes, and the chunk read at that offset yields 0 bytes, the
transfer loop leaves the loop and returns success with the record exactly
as it was (no transition to Completed). -/
theorem zero_read_breaks_without_transition :
    ∀ (env : WorkerEnv) (cfg : TusConfig) (u : Upload) (fuel iter attempt offset : Nat),
      env.stop iter = false →
      get_offset env u iter = .ok offset →
      offset < u.progress.total_bytes →
      min cfg.chunk_size (env.file_len - offset) = 0 →
      upload_chunks env cfg (fuel + 1) u iter attempt = some (.ok (), u, attempt) := by
  intro env cfg u fuel iter attempt offset hstop hoff hlt hn
  simp only [upload_chunks, hstop, hoff, Bool.false_eq_true, if_false]
  rw [if_neg (by omega)]
  simp [hn]

/-- Witness instantiating the amended C9: total_bytes = 5, server offset 3,
file truncated to 2 bytes, fuel 4. -/
theorem zero_read_breaks_without_transition_witness :
    upload_chunks
      { stop := fun _ => false
        head_resp := fun _ => .ok ⟨200, [("upload-offset", "3")]⟩
        patch_resp := fun _ => .error "unused"
        file_len := 2
        time := fun _ => 0 }
      demo_config 4 active_upload 0 0 = some (.ok (), active_upload, 0) :=
  zero_read_breaks_without_transition _ demo_config active_upload 3 0 0 3
    rfl rfl (by decide) (by decide)

/-- Counterexample to C3: with max_retries = 2 and every PATCH answered
500, the run makes exactly 2 PATCH attempts in total (not 2 + 1 = 3),
returns the last error, and leaves the record in state Active, not
Failed. -/
theorem retry_exhaustion_two_attempts_not_three :
    upload_chunks env_patch_fails demo_config 1 active_upload 0 0 =
      some (.error (.Config "Failed to upload chunk: 500"), active_upload, 2) ∧
    demo_config.max_retries = 2 ∧ ¬ ((2 : Nat) = 2 + 1) ∧ active_upload.state ≠ .Failed := by
  refine ⟨by rfl, by rfl, by decide, by decide⟩

/-- When every PATCH attempt fails, the retry loop with remaining budget
at least 1 returns the last error, the unchanged record, and exactly
remaining further attempts. -/
lemma retry_patch_aux_all_fail (env : WorkerEnv) (cfg : TusConfig) (u : Upload)
    (n iter : Nat) (hfail : ∀ k, ∃ e, upload_chunk env u k = .error e) :
    ∀ remaining attempt, 1 ≤ remaining →
      ∃ e, retry_patch_aux env cfg u n iter remaining attempt =
        (.error e, u, attempt + remaining) := by
  intro remaining
  induction remaining with
  | zero => intro attempt h; omega
  | succ r ih =>
    intro attempt _
    obtain ⟨e, he⟩ := hfail attempt
    match r with
    | 0 => exact ⟨e, by rw [retry_patch_aux, he]⟩
    | r' + 1 =>
      obtain ⟨e2, he2⟩ := ih (attempt + 1) (by omega)
      refine ⟨e2, ?_⟩
      have harith : attempt + (r' + 1 + 1) = attempt + 1 + (r' + 1) := by omega
      rw [retry_patch_aux, he, harith]
      exact he2

/-- The retry loop never changes the record's state or its total_bytes
(a PATCH success only adds to the progress counters). -/
lemma retry_patch_aux_record (env : WorkerEnv) (cfg : TusConfig) (u : Upload)
    (n iter : Nat) :
    ∀ remaining attempt,
      (retry_patch_aux env cfg u n iter remaining attempt).2.1.state = u.state ∧
      (retry_patch_aux env cfg u n iter remaining attempt).2.1.progress.total_bytes =
        u.progress.total_bytes := by
  intro remaining
  induction remaining with
  | zero =>
    intro attempt
    rw [retry_patch_aux]
    cases upload_chunk env u attempt with
    | ok _ => simp [Upload.update_progress, UploadProgress.update]
    | error e => simp
  | succ r ih =>
    intro attempt
    match r with
    | 0 =>
      rw [retry_patch_aux]
      cases upload_chunk env u attempt with
      | ok _ => simp [Upload.update_progress, UploadProgress.update]
      | error e => simp
    | r' + 1 =>
      rw [retry_patch_aux]
      cases upload_chunk env u attempt with
      | ok _ => simp [Upload.update_progress, UploadProgress.update]
      | error e => simpa using ih (attempt + 1)

/-- C3 as amended: when the stop signal is clear, the server offset is
below total_bytes, the read is non-empty, every PATCH attempt fails, and
max_retries = m with m at least 1, the worker performs exactly m PATCH
attempts in total (the original plus m - 1 retries, giving up once the
retry counter reaches m), then returns the last error with the record
unchanged — still Active, not transitioned to Failed. -/
theorem retry_exhaustion_attempts_eq_max_retries :
    ∀ (env : WorkerEnv) (cfg : TusConfig) (u : Upload) (fuel iter attempt offset : Nat),
      1 ≤ cfg.max_retries →
      env.stop iter = false →
      get_offset env u iter = .ok offset →
      offset < u.progress.total_bytes →
      0 < min cfg.chunk_size (env.file_len - offset) →
      (∀ k, ∃ e, upload_chunk env u k = .error e) →
      ∃ e, upload_chunks env cfg (fuel + 1) u iter attempt =
        some (.error e, u, attempt + cfg.max_retries) := by
  intro env cfg u fuel iter attempt offset hm hstop hoff hlt hn hfail
  obtain ⟨e, he⟩ := retry_patch_aux_all_fail env cfg u
    (min cfg.chunk_size (env.file_len - offset)) iter hfail cfg.max_retries attempt hm
  refine ⟨e, ?_⟩
  simp only [upload_chunks, hstop, Bool.false_eq_true, if_false, hoff]
  rw [if_neg (by omega)]
  rw [if_neg (by omega)]
  rw [retry_patch, Nat.sub_zero, he]

/-- Witness instantiating the amended C3: with max_retries = 3 and every
PATCH answered 500, the run makes exactly 3 attempts, errors out, and the
record stays Active. -/
theorem retry_exhaustion_attempts_eq_max_retries_witness :
    (∃ e, upload_chunks env_patch_fails demo_config3 2 active_upload 0 0 =
      some (.error e, active_upload, 0 + 3)) ∧ active_upload.state = .Active :=
  ⟨retry_exhaustion_attempts_eq_max_retries env_patch_fails demo_config3 active_upload
      1 0 0 0 (by decide) rfl rfl (by decide) (by decide)
      (fun k => ⟨.Config "Failed to upload chunk: 500", rfl⟩),
   rfl⟩

/-- Counterexample to C5: the server already holds all 5 bytes, so the
first HEAD reports offset 5 and the worker transitions straight to
Completed while bytes_transferred is still 0, not total_bytes = 5. -/
theorem completed_with_partial_bytes_transferred :
    upload_chunks env_offset_complete demo_config 1 active_upload 0 0 =
      some (.ok (), { active_upload with state := .Completed }, 0) ∧
    ({ active_upload with state := .Completed }).state = .Completed ∧
    ({ active_upload with state := .Completed }).progress.bytes_transferred = 0 ∧
    ({ active_upload with state := .Completed }).progress.total_bytes = 5 := by
  refine ⟨by rfl, by rfl, by rfl, by rfl⟩

/-- An Active record transitions to Paused by setting the state and
updated_at fields (the move the table allows). -/
lemma transition_active_paused (u : Upload) (hs : u.state = .Active) (t : Int) :
    u.transition_to .Paused t = .ok { u with state := .Paused, updated_at := t } := by
  simp [Upload.transition_to, hs, UploadState.can_transition_to]

/-- An Active record transitions to Completed by setting the state and
updated_at fields (the move the table allows). -/
lemma transition_active_completed (u : Upload) (hs : u.state = .Active) (t : Int) :
    u.transition_to .Completed t = .ok { u with state := .Completed, updated_at := t } := by
  simp [Upload.transition_to, hs, UploadState.can_transition_to]

/-- Inversion of a successful offset query: there was a HEAD response with
a 2xx status whose Upload-Offset header parsed to the returned offset. -/
lemma get_offset_ok_inv (env : WorkerEnv) (u : Upload) (iter off : Nat) :
    get_offset env u iter = .ok off →
    ∃ r, env.head_resp iter = .ok r ∧ is_success r.status = true ∧
      parse_upload_offset r = some off := by
  intro h
  unfold get_offset at h
  cases hurl : u.upload_url with
  | none => rw [hurl] at h; simp at h
  | some url =>
    rw [hurl] at h
    cases hresp : env.head_resp iter with
    | error msg => rw [hresp] at h; simp at h
    | ok r =>
      rw [hresp] at h
      by_cases hsucc : is_success r.status = true
      · refine ⟨r, rfl, hsucc, ?_⟩
        simp only [hsucc, Bool.not_true, Bool.false_eq_true, if_false] at h
        cases hparse : parse_upload_offset r with
        | none => rw [hparse] at h; simp at h
        | some off2 => rw [hparse] at h; simpa using h
      · rw [Bool.not_eq_true] at hsucc
        simp [hsucc] at h

/-- C5 as amended: an Active record that the transfer loop returns as
Completed got there only because some HEAD response carried a successful
status and an Upload-Offset at least total_bytes; the loop does not
reconcile bytes_transferred with that offset. -/
theorem completed_requires_server_offset_ge_total :
    ∀ (fuel : Nat) (env : WorkerEnv) (cfg : TusConfig) (u u' : Upload)
      (iter attempt attempt' : Nat),
      u.state = .Active →
      upload_chunks env cfg fuel u iter attempt = some (.ok (), u', attempt') →
      u'.state = .Completed →
      ∃ i r off, env.head_resp i = .ok r ∧ is_success r.status = true ∧
        parse_upload_offset r = some off ∧ u'.progress.total_bytes ≤ off := by
  intro fuel
  induction fuel with
  | zero =>
    intro env cfg u u' iter attempt attempt' hs h hc
    simp [upload_chunks] at h
  | succ n ih =>
    intro env cfg u u' iter attempt attempt' hs h hc
    simp only [upload_chunks] at h
    by_cases hstop : env.stop iter
    · rw [if_pos hstop, transition_active_paused u hs] at h
      simp only [Option.some.injEq, Prod.mk.injEq] at h
      obtain ⟨-, hu, -⟩ := h
      rw [← hu] at hc
      simp at hc
    · rw [if_neg hstop] at h
      cases hoff : get_offset env u iter with
      | error e => rw [hoff] at h; simp at h
      | ok offset =>
        rw [hoff] at h
        dsimp only at h
        by_cases hle : u.progress.total_bytes ≤ offset
        · rw [if_pos hle, transition_active_completed u hs] at h
          simp only [Option.some.injEq, Prod.mk.injEq] at h
          obtain ⟨-, hu, -⟩ := h
          obtain ⟨r, hresp, hsucc, hparse⟩ := get_offset_ok_inv env u iter offset hoff
          refine ⟨iter, r, offset, hresp, hsucc, hparse, ?_⟩
          rw [← hu]
          exact hle
        · rw [if_neg hle] at h
          by_cases hn : min cfg.chunk_size (env.file_len - offset) = 0
          · rw [if_pos hn] at h
            simp only [Option.some.injEq, Prod.mk.injEq] at h
            obtain ⟨-, hu, -⟩ := h
            rw [← hu, hs] at hc
            simp at hc
          · rw [if_neg hn] at h
            rcases hr : retry_patch env cfg u
                (min cfg.chunk_size (env.file_len - offset)) iter attempt 0 with
              ⟨res, u2, a2⟩
            rw [hr] at h
            cases res with
            | error e => simp at h
            | ok _ =>
              dsimp only at h
              have hrec := retry_patch_aux_record env cfg u
                (min cfg.chunk_size (env.file_len - offset)) iter
                (cfg.max_retries - 0) attempt
              rw [retry_patch] at hr
              rw [hr] at hrec
              simp only at hrec
              exact ih env cfg u2 u' (iter + 1) a2 attempt'
                (by rw [hrec.1, hs]) h hc

/-- Witness instantiating the amended C5 on the concrete run of the C5
counterexample environment. -/
theorem completed_requires_server_offset_ge_total_witness :
    ∃ i r off, env_offset_complete.head_resp i = .ok r ∧ is_success r.status = true ∧
      parse_upload_offset r = some off ∧
      ({ active_upload with state := .Completed }).progress.total_bytes ≤ off :=
  completed_requires_server_offset_ge_total 1 env_offset_complete demo_config
    active_upload { active_upload with state := .Completed } 0 0 0 rfl rfl rfl

/-- C2 (code bug): with max_concurrent = 2 permits, running the spawned
tasks of three start_upload calls back to back is a legal schedule (each
acquire finds a permit precisely because the previous task already
released its permit at the end of its block, while its worker is still
running), and it drives get_active_count to 3 > 2.  The registry never
shrinks on worker termination, and the permit is released before the
worker terminates, contradicting both the claim and the repository's own
test_concurrent_uploads assertion that the count stays at 2. -/
theorem start_upload_tasks_exceed_max_concurrent :
    (run_ops ⟨2, []⟩
      (start_upload_task_ops "u1" ++ start_upload_task_ops "u2" ++
        start_upload_task_ops "u3")).map get_active_count = some 3 ∧
    ¬ (3 ≤ 2) := by
  refine ⟨by rfl, by decide⟩

/-- Decoding an encoded unsigned integer recovers it. -/
lemma as_nat_num (n : Nat) : Json.as_nat (.num (n : ℚ)) = some n := by
  simp [Json.as_nat]

/-- Decoding an encoded signed integer recovers it. -/
lemma as_int_num (i : Int) : Json.as_int (.num (i : ℚ)) = some i := by
  simp [Json.as_int]

/-- Decoding an encoded optional string recovers it. -/
lemma as_opt_str_roundtrip (o : Option String) :
    Json.as_opt_str (opt_str_to_json o) = some o := by
  cases o <;> simp [opt_str_to_json, Json.as_opt_str]

/-- Decoding an encoded text-to-text mapping recovers it. -/
lemma str_map_roundtrip (m : List (String × String)) :
    Json.as_str_map (str_map_to_json m) = some m := by
  induction m with
  | nil => rfl
  | cons kv rest ih =>
    obtain ⟨k, v⟩ := kv
    simp only [str_map_to_json, List.map_cons, Json.as_str_map, decode_str_fields]
    simp only [str_map_to_json, Json.as_str_map] at ih
    rw [ih]
    rfl

/-- Decoding an encoded state recovers it. -/
lemma state_roundtrip (s : UploadState) :
    UploadState.from_json s.to_json = some s := by
  cases s <;> rfl

/-- Decoding an encoded UploadProgress recovers every field. -/
lemma progress_roundtrip (p : UploadProgress) :
    UploadProgress.from_json p.to_json = some p := by
  simp [UploadProgress.from_json, UploadProgress.to_json, Json.get_field, lookup_field,
    as_nat_num, as_int_num, Json.as_rat, as_opt_str_roundtrip, Option.bind]

/-- Decoding an encoded Upload recovers every field. -/
lemma upload_roundtrip (u : Upload) : Upload.from_json u.to_json = some u := by
  simp [Upload.from_json, Upload.to_json, Json.get_field, lookup_field,
    as_int_num, Json.as_str, state_roundtrip, progress_roundtrip,
    as_opt_str_roundtrip, str_map_roundtrip, Option.bind]

/-- Decoding an encoded Duration recovers it. -/
lemma duration_roundtrip (d : Duration) : Duration.from_json d.to_json = some d := by
  simp [Duration.from_json, Duration.to_json, Json.get_field, lookup_field,
    as_nat_num, Option.bind]

/-- Decoding an encoded TusConfig recovers every field. -/
lemma config_roundtrip (c : TusConfig) : TusConfig.from_json c.to_json = some c := by
  simp [TusConfig.from_json, TusConfig.to_json, Json.get_field, lookup_field,
    as_nat_num, Json.as_str, str_map_roundtrip, duration_roundtrip, Option.bind]

/-- Decoding the encoded uploads mapping recovers it. -/
lemma uploads_roundtrip (l : List (String × Upload)) :
    Json.as_uploads (uploads_to_json l) = some l := by
  induction l with
  | nil => rfl
  | cons kv rest ih =>
    obtain ⟨k, u⟩ := kv
    simp only [uploads_to_json, List.map_cons, Json.as_uploads, decode_upload_fields,
      upload_roundtrip]
    simp only [uploads_to_json, Json.as_uploads] at ih
    rw [ih]

/-- Decoding an encoded snapshot recovers version, uploads and config. -/
lemma snapshot_roundtrip (s : UploadStateSnapshot) :
    UploadStateSnapshot.from_json s.to_json = some s := by
  simp [UploadStateSnapshot.from_json, UploadStateSnapshot.to_json, Json.get_field,
    lookup_field, as_nat_num, uploads_roundtrip, config_roundtrip, Option.bind]

/-- C4: persisting any snapshot with save_state and then opening a new
state store over the same state directory parses the persisted file back
into an in-memory snapshot equal to the original in every field (version,
uploads, config). -/
theorem save_then_open_roundtrip :
    ∀ (fs : ModelFs) (snap : UploadStateSnapshot) (cfg : TusConfig),
      UploadManager.new (save_state fs cfg.state_dir snap) cfg =
        .ok { state := snap, state_file := state_file_path cfg.state_dir } := by
  intro fs snap cfg
  unfold UploadManager.new save_state persist_state fs_rename fs_write
  simp [snapshot_roundtrip]

end Uploader

namespace Uploader.Core

/-- C6 (code bug): removing id "a" from the store holding records a and b
keeps ONLY record a and destroys record b — the claim (and the spec, which
flags this line as the slip retain(id == target) for id != target) says
exactly the opposite: a should be deleted and b kept. -/
theorem core_remove_keeps_only_matching_record :
    UploadStateManager.remove [upload_a, upload_b] "a" = [upload_a] ∧
    [upload_a] ≠ [upload_b] ∧
    UploadStateManager.remove [upload_a, upload_b] "does-not-exist" = [] := by
  refine ⟨by rfl, by decide, by rfl⟩

end Uploader.Core
